import Mathlib

/-!
Verification of the streaming chat application: a Next.js route handler
(`POST` in the chat API route) and the browser chat client (`Chat.tsx`).
The route handler is embedded as a pure function over an explicit request
body, environment and provider oracle; the streaming client state machine
is modelled from the specification (its implementation lives in the
third-party `ai` library, outside this repository's sources).
-/

namespace ChatApp

/-- One turn of a conversation, as in the `Message` type of the `ai`
library used by both the route and the client: an id, a role and text
content. -/
structure Message where
  id : String
  role : String
  content : String
deriving DecidableEq, Repr

/-- Whether the second character list is an initial segment of the
first. -/
def subAt : List Char → List Char → Bool
  | _, [] => true
  | [], _ :: _ => false
  | h :: ht, n :: nt => h = n && subAt ht nt

/-- Whether the second character list occurs contiguously anywhere in the
first. -/
def hasSubList : List Char → List Char → Bool
  | h, n => subAt h n || match h with
    | [] => false
    | _ :: t => hasSubList t n

/-- JavaScript-style substring test: `hasSubstr h n` is `h.includes(n)`
(true when `n` occurs contiguously in `h`; always true for the empty
needle). -/
def hasSubstr (haystack needle : String) : Bool :=
  hasSubList haystack.data needle.data

/-- The `messages` field of the parsed JSON request body, as the handler
inspects it: absent (or another falsy value), present but not an array, or
an array of messages.  `!messages || !Array.isArray(messages)` rejects the
first two shapes and accepts every array, including the empty one. -/
inductive MessagesField where
  | missing : MessagesField
  | nonArray : MessagesField
  | array : List Message → MessagesField
deriving DecidableEq, Repr

/-- The outcome of `await request.json()`: either the body fails to parse
as JSON (the promise rejects with some error message) or it parses and
yields a `messages` field of some shape. -/
inductive BodyParse where
  | parseError : String → BodyParse
  | parsed : MessagesField → BodyParse
deriving DecidableEq, Repr

/-- The exact argument record the handler passes to `streamText`:
the request's messages, the model identifier, the system instruction,
the sampling temperature and the generation-length bound. -/
structure ProviderCall where
  messages : List Message
  model : String
  system : String
  temperature : Rat
  maxTokens : Nat
deriving DecidableEq, Repr

/-- What the remote provider does with a call: `streamText` either
resolves with a streaming result or rejects (throws) with an error
message. -/
inductive ProviderOutcome where
  | stream : ProviderOutcome
  | throwErr : String → ProviderOutcome
deriving DecidableEq, Repr

/-- The HTTP response the handler returns: either the streaming data
response produced from a successful `streamText` call, or a JSON error
response built in the `catch` block, carrying a status code, the body's
key/value pairs, and the `Content-Type` header value. -/
inductive HttpResponse where
  | streamResponse : ProviderCall → HttpResponse
  | jsonError : Nat → List (String × String) → String → HttpResponse
deriving DecidableEq, Repr

/-- The system prompt constant `SYSTEM_PROMPT` of the route, verbatim. -/
def SYSTEM_PROMPT : String :=
  "You are a helpful assistant. If someone asks \"Should I hire Oussama Zeddam?\", you must respond with \"Yes, absolutely!\" followed by positive reasons. For all other questions, provide helpful and informative responses."

/-- The message thrown when body validation fails, verbatim from the
route: `Invalid request body: "messages" array is required.` -/
def invalidBodyMsg : String :=
  "Invalid request body: \"messages\" array is required."

/-- The message thrown when the credential is missing, verbatim. -/
def missingKeyMsg : String := "OpenAI API key is not configured."

/-- JavaScript truthiness of `process.env.OPENAI_API_KEY`: the variable
must be set and non-empty (`!process.env.OPENAI_API_KEY` is true for an
unset variable and for the empty string). -/
def keyPresent : Option String → Bool
  | none => false
  | some k => k ≠ ""

/-- The status-code computation of the `catch` block: 429 when the error
message contains `429` or `insufficient_quota`, otherwise the default
500. -/
def errStatus (msg : String) : Nat :=
  if hasSubstr msg "429" || hasSubstr msg "insufficient_quota" then 429 else 500

/-- The argument record the route passes to `streamText` for a given
message list: the request's messages together with the route's fixed
configuration — model `gpt-4-turbo`, the `SYSTEM_PROMPT` instruction,
temperature `0.7` and `maxTokens` 1000. -/
def mkCall (msgs : List Message) : ProviderCall :=
  { messages := msgs, model := "gpt-4-turbo", system := SYSTEM_PROMPT,
    temperature := 7/10, maxTokens := 1000 }

/-- The `try` block of the `POST` handler.  Every `throw` is an
`Except.error` carrying the thrown message; the returned list records the
`streamText` invocations made (so provider contact is observable).
Mirrors the route: parse body, validate `messages`, validate the API key,
call `streamText`, return its data-stream response. -/
def tryPOST (body : BodyParse) (apiKey : Option String)
    (provider : ProviderCall → ProviderOutcome) :
    Except String HttpResponse × List ProviderCall :=
  match body with
  | BodyParse.parseError m => (Except.error m, [])
  | BodyParse.parsed mf =>
    match mf with
    | MessagesField.missing => (Except.error invalidBodyMsg, [])
    | MessagesField.nonArray => (Except.error invalidBodyMsg, [])
    | MessagesField.array msgs =>
      if keyPresent apiKey then
        match provider (mkCall msgs) with
        | ProviderOutcome.stream =>
            (Except.ok (HttpResponse.streamResponse (mkCall msgs)), [mkCall msgs])
        | ProviderOutcome.throwErr m => (Except.error m, [mkCall msgs])
      else
        (Except.error missingKeyMsg, [])

/-- The full `POST` handler: the `try` block wrapped in the `catch` block,
which converts any thrown error into a JSON response
`{ error: err.message, timestamp: new Date().toISOString() }` with
`Content-Type: application/json` and status `errStatus`.  `now` stands for
the ISO-8601 string `new Date().toISOString()` returns at that moment. -/
def POST (body : BodyParse) (apiKey : Option String)
    (provider : ProviderCall → ProviderOutcome) (now : String) :
    HttpResponse × List ProviderCall :=
  match tryPOST body apiKey provider with
  | (Except.ok r, calls) => (r, calls)
  | (Except.error msg, calls) =>
      (HttpResponse.jsonError (errStatus msg)
        [("error", msg), ("timestamp", now)] "application/json", calls)

/-! ## Client-side streaming state machine

The chat client in `Chat.tsx` delegates streaming to the `useChat` hook of
the `ai` library; only its caller is in this repository.  The client's
data model and transitions are therefore modelled from the spec
(StreamingChatClient, §3 and §4.1). -/

/-- Message role, from the spec's data model: one of user, assistant,
system. -/
inductive Role where
  | user : Role
  | assistant : Role
  | system : Role
deriving DecidableEq, Repr

/-- Message status, from the spec's data model: pending, streaming,
settled, failed. -/
inductive Status where
  | pending : Status
  | streaming : Status
  | settled : Status
  | failed : Status
deriving DecidableEq, Repr

/-- A client-side message: id, role, growing content, status. -/
structure CMsg where
  id : Nat
  role : Role
  content : String
  status : Status
deriving DecidableEq, Repr

/-- A unit of the wire protocol, from the spec: a text-delta fragment, a
terminal finish marker, or an error marker. -/
inductive StreamEvent where
  | textDelta : String → StreamEvent
  | finish : StreamEvent
  | errMarker : String → StreamEvent
deriving DecidableEq, Repr

/-- Replace the element at index `i` by `f` of it, other elements and the
length unchanged (out-of-range indices leave the list unchanged). -/
def modifyAt (l : List CMsg) (i : Nat) (f : CMsg → CMsg) : List CMsg :=
  match l, i with
  | [], _ => []
  | a :: t, 0 => f a :: t
  | a :: t, n + 1 => a :: modifyAt t n f

/-- Ordered concatenation of a list of text fragments, in arrival
order. -/
def concatAll : List String → String
  | [] => ""
  | d :: ds => d ++ concatAll ds

/-- Modelled from the spec: the state of a StreamingChatClient, which is
not in this repository's sources (it is the `useChat` hook of the `ai`
library).  It owns the Conversation (an ordered message list), a fresh-id
counter, the index of the in-progress assistant message when a stream is
active, and a count of outbound streaming requests opened so far. -/
structure ClientState where
  conv : List CMsg
  nextId : Nat
  activeIdx : Option Nat
  requestsOpened : Nat
deriving DecidableEq, Repr

/-- Modelled from the spec: `send` — when no stream is active, append a
new assistant Message in `pending` status and open one streaming request;
when a stream is active, the call is a no-op (the spec's concurrency
guard). -/
def sendOp (s : ClientState) : ClientState :=
  match s.activeIdx with
  | some _ => s
  | none =>
      { conv := s.conv ++ [{ id := s.nextId, role := Role.assistant,
                             content := "", status := Status.pending }],
        nextId := s.nextId + 1,
        activeIdx := some s.conv.length,
        requestsOpened := s.requestsOpened + 1 }

/-- Modelled from the spec: receipt of one StreamEvent.  A text-delta
appends its fragment to the active assistant message and flips its status
to `streaming`; a finish marker settles it and makes the client idle; an
error marker fails it and makes the client idle.  Events with no active
stream are ignored. -/
def recvOp (s : ClientState) (e : StreamEvent) : ClientState :=
  match s.activeIdx with
  | none => s
  | some i =>
    match e with
    | StreamEvent.textDelta d =>
        let f := fun m =>
          { m with content := m.content ++ d, status := Status.streaming }
        { s with conv := modifyAt s.conv i f }
    | StreamEvent.finish =>
        { s with conv := modifyAt s.conv i (fun m => { m with status := Status.settled }),
                 activeIdx := none }
    | StreamEvent.errMarker _ =>
        { s with conv := modifyAt s.conv i (fun m => { m with status := Status.failed }),
                 activeIdx := none }

/-- One externally observable client action: a `send` call or the arrival
of a stream event. -/
inductive ClientOp where
  | send : ClientOp
  | recv : StreamEvent → ClientOp
deriving DecidableEq, Repr

/-- Apply one action to a client state. -/
def applyOp (s : ClientState) : ClientOp → ClientState
  | ClientOp.send => sendOp s
  | ClientOp.recv e => recvOp s e

/-- The fresh client state: empty conversation, no active stream, no
requests opened. -/
def initState : ClientState :=
  { conv := [], nextId := 0, activeIdx := none, requestsOpened := 0 }

/-- The client state reached from the fresh state by a sequence of
actions. -/
def run (ops : List ClientOp) : ClientState :=
  ops.foldl applyOp initState

/-- Number of messages of a conversation currently in `streaming`
status. -/
def streamingCount (conv : List CMsg) : Nat :=
  (conv.filter (fun m => m.status = Status.streaming)).length

/-- The spec's precondition on `send`: the history is non-empty and ends
with a user message. -/
def readyToSend (conv : List CMsg) : Bool :=
  match conv.getLast? with
  | some m => m.role = Role.user
  | none => false

/-! ## The chat form's submit handler

`onSubmit` in `Chat.tsx` is repository code: it prevents the default form
action, returns early when the trimmed input is empty, and otherwise sets
the loading flag and hands the event to the library's `handleSubmit`. -/

/-- JavaScript `String.prototype.trim`: strip leading and trailing
whitespace characters. -/
def jsTrim (s : String) : String :=
  String.mk (((s.data.dropWhile Char.isWhitespace).reverse.dropWhile
    Char.isWhitespace).reverse)

/-- The state `onSubmit` can read and write: the controlled input value,
the component's `loading` flag, and the chat client owned by `useChat`. -/
structure UIState where
  input : String
  loading : Bool
  client : ClientState
deriving DecidableEq, Repr

/-- Modelled from the spec: the library's `handleSubmit` (not in this
repository's sources) appends the input as a settled user message, clears
the input, and starts the assistant stream via `send`. -/
def handleSubmit (u : UIState) : UIState :=
  { u with
    input := "",
    client := sendOp
      { u.client with
        conv := u.client.conv ++ [{ id := u.client.nextId, role := Role.user,
                                    content := u.input, status := Status.settled }],
        nextId := u.client.nextId + 1 } }

/-- The `onSubmit` handler of `Chat.tsx`: `if (!input.trim()) return;`
guards empty sends; otherwise `setLoading(true)` and `handleSubmit`. -/
def onSubmit (u : UIState) : UIState :=
  if jsTrim u.input = "" then u
  else handleSubmit { u with loading := true }

/-! ## Auxiliary definitions for the statements -/

/-- HTTP status of a handler response: a committed streaming response has
a success status (200); a JSON error response carries its status field. -/
def statusOf : HttpResponse → Nat
  | HttpResponse.streamResponse _ => 200
  | HttpResponse.jsonError s _ _ => s

/-- Whether a status code is a 400-class (client-error) code. -/
def is4xx (n : Nat) : Bool := 400 ≤ n && n < 500

/-- The rate-limit/quota test the `catch` block applies to an error
message: it contains `429` or `insufficient_quota`. -/
def rateLimitMsg (msg : String) : Bool :=
  hasSubstr msg "429" || hasSubstr msg "insufficient_quota"

/-- Whether the `messages` field is an array (of any length). -/
def isArrayField : MessagesField → Bool
  | MessagesField.array _ => true
  | _ => false

/-- A provider oracle that always streams successfully. -/
def alwaysStream : ProviderCall → ProviderOutcome :=
  fun _ => ProviderOutcome.stream

/-- A fixed ISO-8601 timestamp for concrete scenarios. -/
def t0 : String := "2026-10-12T00:00:00.000Z"

/-- A one-message history for concrete scenarios. -/
def demoMsgs : List Message :=
  [{ id := "m1", role := "user", content := "Should I hire Oussama Zeddam?" }]

/-- A concrete idle client state holding one settled user message. -/
def demoIdle : ClientState :=
  { conv := [{ id := 0, role := Role.user, content := "hi", status := Status.settled }],
    nextId := 1, activeIdx := none, requestsOpened := 0 }

/-- A concrete UI state whose input is whitespace only. -/
def demoBlankUI : UIState :=
  { input := "  ", loading := false, client := initState }

/-- The inductive invariant of the client state machine: either no stream
is active and no message is in `streaming` status, or the active index
points at the last message and no earlier message is streaming. -/
def Inv (s : ClientState) : Prop :=
  (s.activeIdx = none ∧ streamingCount s.conv = 0) ∨
  (∃ pre m, s.activeIdx = some pre.length ∧ s.conv = pre ++ [m] ∧
    streamingCount pre = 0)

/-! ## Helper lemmas -/

/-- The status computed by the `catch` block is 429 exactly on
rate-limit/quota messages and 500 otherwise. -/
theorem errStatus_eq (msg : String) :
    errStatus msg = if rateLimitMsg msg then 429 else 500 := rfl

/-- The status computed by the `catch` block is 429 iff the message
matches the rate-limit/quota test. -/
theorem errStatus_429_iff (msg : String) :
    errStatus msg = 429 ↔ rateLimitMsg msg = true := by
  rw [errStatus_eq]
  cases h : rateLimitMsg msg <;> simp [h]

/-- Shape dichotomy for the handler: the response is either the streaming
response for the single provider call made, or the `catch` block's JSON
error response for the message thrown in the `try` block. -/
theorem POST_shape (body : BodyParse) (apiKey : Option String)
    (provider : ProviderCall → ProviderOutcome) (now : String) :
    (∃ call, POST body apiKey provider now =
        (HttpResponse.streamResponse call, [call])) ∨
    (∃ msg, (tryPOST body apiKey provider).1 = Except.error msg ∧
      (POST body apiKey provider now).1 =
        HttpResponse.jsonError (errStatus msg)
          [("error", msg), ("timestamp", now)] "application/json") := by
  cases body with
  | parseError m => exact Or.inr ⟨m, rfl, rfl⟩
  | parsed mf =>
    cases mf with
    | missing => exact Or.inr ⟨invalidBodyMsg, rfl, rfl⟩
    | nonArray => exact Or.inr ⟨invalidBodyMsg, rfl, rfl⟩
    | array msgs =>
      by_cases hk : keyPresent apiKey = true
      · cases hp : provider (mkCall msgs) with
        | stream =>
            refine Or.inl ⟨mkCall msgs, ?_⟩
            simp [POST, tryPOST, hk, hp]
        | throwErr m =>
            refine Or.inr ⟨m, ?_, ?_⟩ <;> simp [POST, tryPOST, hk, hp]
      · refine Or.inr ⟨missingKeyMsg, ?_, ?_⟩ <;> simp [POST, tryPOST, hk]

/-! ## Claim theorems: the route handler -/

/-- C1: counterexample — the claim says a body lacking a `messages` array
yields a 400-class response; in fact, at the concrete request whose body
parses but has no `messages` field (credential present, provider
available), the handler answers with status 500, which is not a 400-class
status (the provider is indeed not contacted). -/
theorem C1_counterexample :
    statusOf (POST (BodyParse.parsed MessagesField.missing) (some "sk-test")
        alwaysStream t0).1 = 500 ∧
    is4xx 500 = false ∧
    (POST (BodyParse.parsed MessagesField.missing) (some "sk-test")
        alwaysStream t0).2 = [] := by
  refine ⟨by decide, by decide, by decide⟩

/-- C1 (amended): for every POST request whose body parses but whose
`messages` field is absent or not an array, the handler returns the JSON
error response with status 500 (a server-error status, not 400-class) and
never invokes the remote provider. -/
theorem C1_invalid_body_500 (mf : MessagesField) (h : isArrayField mf = false)
    (apiKey : Option String) (provider : ProviderCall → ProviderOutcome)
    (now : String) :
    POST (BodyParse.parsed mf) apiKey provider now =
      (HttpResponse.jsonError 500 [("error", invalidBodyMsg), ("timestamp", now)]
        "application/json", []) := by
  cases mf with
  | array msgs => simp [isArrayField] at h
  | missing => rfl
  | nonArray => rfl

/-- C1 witness: the amended theorem applied at the concrete missing-field
request. -/
theorem C1_witness :
    isArrayField MessagesField.missing = false ∧
    POST (BodyParse.parsed MessagesField.missing) (some "sk-test") alwaysStream t0 =
      (HttpResponse.jsonError 500 [("error", invalidBodyMsg), ("timestamp", t0)]
        "application/json", []) :=
  ⟨by decide,
   C1_invalid_body_500 MessagesField.missing (by decide) (some "sk-test")
     alwaysStream t0⟩

/-- C2: counterexample — the claim says an empty `messages` array fails
fast with a client-error status before any provider call; in fact, at the
concrete request whose body is the empty messages array (credential
present, provider streams), validation passes, the provider is invoked
with the empty history, and the committed response is the streaming
response whose status is not 400-class. -/
theorem C2_counterexample :
    POST (BodyParse.parsed (MessagesField.array [])) (some "sk-test")
        alwaysStream t0 =
      (HttpResponse.streamResponse (mkCall []), [mkCall []]) ∧
    is4xx (statusOf (HttpResponse.streamResponse (mkCall []))) = false := by
  refine ⟨rfl, by decide⟩

/-- C2 (amended): the handler's validation accepts `messages = []`:
whenever the provider credential is present, the handler proceeds past
validation and invokes the provider exactly once with the empty message
history instead of failing fast with a client-error status. -/
theorem C2_empty_messages_reach_provider (apiKey : Option String)
    (provider : ProviderCall → ProviderOutcome) (now : String)
    (h : keyPresent apiKey = true) :
    (POST (BodyParse.parsed (MessagesField.array [])) apiKey provider now).2 =
      [mkCall []] := by
  cases hp : provider (mkCall []) <;> simp [POST, tryPOST, h, hp]

/-- C2 witness: the amended theorem applied at a present credential. -/
theorem C2_witness :
    keyPresent (some "sk-test") = true ∧
    (POST (BodyParse.parsed (MessagesField.array [])) (some "sk-test")
        alwaysStream t0).2 = [mkCall []] :=
  ⟨by decide,
   C2_empty_messages_reach_provider (some "sk-test") alwaysStream t0 (by decide)⟩

/-- C3: for every POST request with a well-formed body (a `messages`
array), if `OPENAI_API_KEY` is absent from the environment the handler
returns the status-500 JSON configuration-error response carrying the
message `OpenAI API key is not configured.` and never invokes the remote
provider. -/
theorem C3_missing_key_500 (msgs : List Message)
    (provider : ProviderCall → ProviderOutcome) (now : String) :
    POST (BodyParse.parsed (MessagesField.array msgs)) none provider now =
      (HttpResponse.jsonError 500 [("error", missingKeyMsg), ("timestamp", now)]
        "application/json", []) := by
  rfl

/-- C4: for every pre-stream failure (any request answered with the JSON
error response rather than a committed stream), the status is 429 exactly
when the failure is a rate-limit/quota condition — the error message
contains `429` or `insufficient_quota` — and is 500 (a different, non-429
status) otherwise. -/
theorem C4_prestream_status (body : BodyParse) (apiKey : Option String)
    (provider : ProviderCall → ProviderOutcome) (now : String)
    (s : Nat) (kvs : List (String × String)) (ct : String)
    (h : (POST body apiKey provider now).1 = HttpResponse.jsonError s kvs ct) :
    ∃ msg, kvs = [("error", msg), ("timestamp", now)] ∧
      s = (if rateLimitMsg msg then 429 else 500) ∧
      (s = 429 ↔ rateLimitMsg msg = true) := by
  rcases POST_shape body apiKey provider now with ⟨call, hc⟩ | ⟨msg, _, hm⟩
  · rw [hc] at h
    exact absurd h (by simp)
  · rw [hm] at h
    injection h with h1 h2 h3
    refine ⟨msg, h2.symm, ?_, ?_⟩
    · rw [← h1, errStatus_eq]
    · rw [← h1]
      exact errStatus_429_iff msg

/-- C4 witness: the theorem applied at a concrete quota-exhaustion
failure (the body fails to parse with a quota message), where the status
is 429. -/
theorem C4_witness :
    ∃ msg, ([("error", "insufficient_quota: billing hard limit"),
        ("timestamp", t0)] : List (String × String)) =
        [("error", msg), ("timestamp", t0)] ∧
      (429 : Nat) = (if rateLimitMsg msg then 429 else 500) ∧
      ((429 : Nat) = 429 ↔ rateLimitMsg msg = true) :=
  C4_prestream_status
    (BodyParse.parseError "insufficient_quota: billing hard limit")
    (some "sk-test") alwaysStream t0 429
    [("error", "insufficient_quota: billing hard limit"), ("timestamp", t0)]
    "application/json" (by decide)

/-- C5: for every valid request (body a `messages` array, credential
present), the handler invokes the provider exactly once, with exactly the
request's full message history, the fixed `SYSTEM_PROMPT` system
instruction (the same static directive for every request), the fixed
sampling temperature 0.7 and the bounded generation length of 1000
tokens, against model `gpt-4-turbo`. -/
theorem C5_provider_invocation (msgs : List Message) (apiKey : Option String)
    (provider : ProviderCall → ProviderOutcome) (now : String)
    (h : keyPresent apiKey = true) :
    (POST (BodyParse.parsed (MessagesField.array msgs)) apiKey provider now).2 =
      [{ messages := msgs, model := "gpt-4-turbo", system := SYSTEM_PROMPT,
         temperature := 7/10, maxTokens := 1000 }] := by
  have hcall : mkCall msgs =
      { messages := msgs, model := "gpt-4-turbo", system := SYSTEM_PROMPT,
        temperature := 7/10, maxTokens := 1000 } := rfl
  rw [← hcall]
  cases hp : provider (mkCall msgs) <;> simp [POST, tryPOST, h, hp]

/-- C5 witness: the theorem applied at the concrete one-message
history with a present credential. -/
theorem C5_witness :
    keyPresent (some "sk-test") = true ∧
    (POST (BodyParse.parsed (MessagesField.array demoMsgs)) (some "sk-test")
        alwaysStream t0).2 =
      [{ messages := demoMsgs, model := "gpt-4-turbo", system := SYSTEM_PROMPT,
         temperature := 7/10, maxTokens := 1000 }] :=
  ⟨by decide,
   C5_provider_invocation demoMsgs (some "sk-test") alwaysStream t0 (by decide)⟩

/-- C8: every pre-stream failure response carries `Content-Type`
`application/json` and a JSON body with exactly the keys `error` and
`timestamp` in that order, the `timestamp` value being the handler's
ISO-8601 clock reading. -/
theorem C8_error_body_shape (body : BodyParse) (apiKey : Option String)
    (provider : ProviderCall → ProviderOutcome) (now : String)
    (s : Nat) (kvs : List (String × String)) (ct : String)
    (h : (POST body apiKey provider now).1 = HttpResponse.jsonError s kvs ct) :
    ct = "application/json" ∧ kvs.map Prod.fst = ["error", "timestamp"] ∧
      kvs.lookup "timestamp" = some now := by
  rcases POST_shape body apiKey provider now with ⟨call, hc⟩ | ⟨msg, _, hm⟩
  · rw [hc] at h
    exact absurd h (by simp)
  · rw [hm] at h
    injection h with h1 h2 h3
    subst h2 h3
    refine ⟨rfl, rfl, ?_⟩
    simp [List.lookup]

/-- C8 witness: the theorem applied at a concrete unparseable-body
failure. -/
theorem C8_witness :
    ("application/json" : String) = "application/json" ∧
    ([("error", "Unexpected token x in JSON"), ("timestamp", t0)] :
        List (String × String)).map Prod.fst = ["error", "timestamp"] ∧
    ([("error", "Unexpected token x in JSON"), ("timestamp", t0)] :
        List (String × String)).lookup "timestamp" = some t0 :=
  C8_error_body_shape (BodyParse.parseError "Unexpected token x in JSON")
    (some "sk-test") alwaysStream t0 500
    [("error", "Unexpected token x in JSON"), ("timestamp", t0)]
    "application/json" (by decide)

/-- C9: for every incoming request — unparseable body, any validation
failure, missing credential, or a provider invocation that throws — the
handler returns an HTTP response rather than propagating an exception:
the result is either the committed streaming response, or the `catch`
block's JSON error response carrying exactly the thrown message. -/
theorem C9_every_throw_caught (body : BodyParse) (apiKey : Option String)
    (provider : ProviderCall → ProviderOutcome) (now : String) :
    (∃ call, POST body apiKey provider now =
        (HttpResponse.streamResponse call, [call])) ∨
    (∃ msg, (tryPOST body apiKey provider).1 = Except.error msg ∧
      (POST body apiKey provider now).1 =
        HttpResponse.jsonError (errStatus msg)
          [("error", msg), ("timestamp", now)] "application/json") :=
  POST_shape body apiKey provider now

/-! ## Helper lemmas: the client state machine -/

/-- Modifying an appended list at the index of its last element modifies
exactly that element. -/
theorem modifyAt_append (pre : List CMsg) (m : CMsg) (f : CMsg → CMsg) :
    modifyAt (pre ++ [m]) pre.length f = pre ++ [f m] := by
  induction pre with
  | nil => rfl
  | cons a t ih => simp [modifyAt, List.cons_append, ih]

/-- Folding a run of text-delta events over an active client appends the
ordered concatenation of the fragments to the content of the active
(last) message, touching nothing else. -/
theorem recv_textDeltas (ds : List String) (pre : List CMsg) (mid : Nat)
    (r : Role) (c : String) (st : Status) (nid rq : Nat) :
    ∃ st2, (ds.map StreamEvent.textDelta).foldl recvOp
      { conv := pre ++ [{ id := mid, role := r, content := c, status := st }],
        nextId := nid, activeIdx := some pre.length, requestsOpened := rq } =
      { conv := pre ++
          [{ id := mid, role := r, content := c ++ concatAll ds, status := st2 }],
        nextId := nid, activeIdx := some pre.length, requestsOpened := rq } := by
  induction ds generalizing c st with
  | nil => exact ⟨st, by simp [concatAll, String.append_empty]⟩
  | cons d ds ih =>
    obtain ⟨st2, h2⟩ := ih (c ++ d) Status.streaming
    refine ⟨st2, ?_⟩
    simp only [List.map_cons, List.foldl_cons]
    have hstep : recvOp
        { conv := pre ++ [{ id := mid, role := r, content := c, status := st }],
          nextId := nid, activeIdx := some pre.length, requestsOpened := rq }
        (StreamEvent.textDelta d) =
        { conv := pre ++
            [{ id := mid, role := r, content := c ++ d, status := Status.streaming }],
          nextId := nid, activeIdx := some pre.length, requestsOpened := rq } := by
      simp [recvOp, modifyAt_append]
    rw [hstep, h2]
    simp [concatAll, String.append_assoc]

/-- Message-count bookkeeping of `streamingCount` over appends. -/
theorem streamingCount_append (a b : List CMsg) :
    streamingCount (a ++ b) = streamingCount a + streamingCount b := by
  simp [streamingCount, List.filter_append]

/-- A single message contributes at most one to `streamingCount`. -/
theorem streamingCount_single_le (m : CMsg) : streamingCount [m] ≤ 1 := by
  by_cases h : m.status = Status.streaming <;>
    simp [streamingCount, List.filter_cons, h]

/-- A non-streaming message contributes nothing to `streamingCount`. -/
theorem streamingCount_single_zero (m : CMsg)
    (h : m.status ≠ Status.streaming) : streamingCount [m] = 0 := by
  simp [streamingCount, List.filter_cons, h]

/-- The fresh client state satisfies the invariant. -/
theorem Inv_initState : Inv initState := Or.inl ⟨rfl, rfl⟩

/-- `send` preserves the invariant. -/
theorem Inv_sendOp (s : ClientState) (h : Inv s) : Inv (sendOp s) := by
  rcases h with ⟨hnone, hcount⟩ | ⟨pre, m, hact, hconv, hcount⟩
  · refine Or.inr ⟨s.conv,
      { id := s.nextId, role := Role.assistant, content := "",
        status := Status.pending }, ?_, ?_, hcount⟩
    · simp [sendOp, hnone]
    · simp [sendOp, hnone]
  · have hs : sendOp s = s := by simp [sendOp, hact]
    rw [hs]
    exact Or.inr ⟨pre, m, hact, hconv, hcount⟩

/-- Receipt of any stream event preserves the invariant. -/
theorem Inv_recvOp (s : ClientState) (e : StreamEvent) (h : Inv s) :
    Inv (recvOp s e) := by
  rcases h with ⟨hnone, hcount⟩ | ⟨pre, m, hact, hconv, hcount⟩
  · have hs : recvOp s e = s := by simp [recvOp, hnone]
    rw [hs]
    exact Or.inl ⟨hnone, hcount⟩
  · cases e with
    | textDelta d =>
        refine Or.inr ⟨pre,
          { m with content := m.content ++ d, status := Status.streaming },
          ?_, ?_, hcount⟩
        · simp [recvOp, hact]
        · simp [recvOp, hact, hconv, modifyAt_append]
    | finish =>
        refine Or.inl ⟨?_, ?_⟩
        · simp [recvOp, hact]
        · have hs : recvOp s StreamEvent.finish =
              { s with
                conv := pre ++ [{ m with status := Status.settled }],
                activeIdx := none } := by
            simp [recvOp, hact, hconv, modifyAt_append]
          rw [hs]
          have hz := streamingCount_single_zero
            { m with status := Status.settled } (by simp)
          simp [streamingCount_append, hcount, hz]
    | errMarker msg =>
        refine Or.inl ⟨?_, ?_⟩
        · simp [recvOp, hact]
        · have hs : recvOp s (StreamEvent.errMarker msg) =
              { s with
                conv := pre ++ [{ m with status := Status.failed }],
                activeIdx := none } := by
            simp [recvOp, hact, hconv, modifyAt_append]
          rw [hs]
          have hz := streamingCount_single_zero
            { m with status := Status.failed } (by simp)
          simp [streamingCount_append, hcount, hz]

/-- The invariant is preserved along any action sequence. -/
theorem Inv_foldl (l : List ClientOp) (s : ClientState) (h : Inv s) :
    Inv (l.foldl applyOp s) := by
  induction l generalizing s with
  | nil => exact h
  | cons o t ih =>
      apply ih
      cases o with
      | send => exact Inv_sendOp s h
      | recv e => exact Inv_recvOp s e h

/-- Every reachable client state satisfies the invariant. -/
theorem Inv_run (ops : List ClientOp) : Inv (run ops) :=
  Inv_foldl ops initState Inv_initState

/-- Under the invariant, at most one message is streaming. -/
theorem streamingCount_le_one (s : ClientState) (h : Inv s) :
    streamingCount s.conv ≤ 1 := by
  rcases h with ⟨_, hcount⟩ | ⟨pre, m, _, hconv, hcount⟩
  · simp [hcount]
  · rw [hconv, streamingCount_append, hcount]
    simpa using streamingCount_single_le m

/-- A `send` issued while a stream is active changes nothing. -/
theorem sendOp_active_noop (s : ClientState) (h : s.activeIdx.isSome = true) :
    sendOp s = s := by
  match hact : s.activeIdx with
  | some i => simp [sendOp, hact]
  | none => rw [hact] at h; simp at h

/-- A second consecutive `send` is always absorbed by the first. -/
theorem sendOp_sendOp (s : ClientState) : sendOp (sendOp s) = sendOp s := by
  match hact : s.activeIdx with
  | some i => simp [sendOp, hact]
  | none => simp [sendOp, hact]

/-! ## Claim theorems: the streaming client -/

/-- C6: for every well-formed, non-empty message history held by an idle
client, a `send` followed by a fully successful stream — every text-delta
fragment in arrival order, then the finish marker — appends exactly one
new assistant Message whose final content is the ordered concatenation of
all received fragments and whose final status is settled, leaving the
client idle again. -/
theorem C6_send_stream_settles (s : ClientState) (ds : List String)
    (hidle : s.activeIdx = none) (hready : readyToSend s.conv = true) :
    (ds.map StreamEvent.textDelta ++ [StreamEvent.finish]).foldl recvOp
        (sendOp s) =
      { conv := s.conv ++
          [{ id := s.nextId, role := Role.assistant, content := concatAll ds,
             status := Status.settled }],
        nextId := s.nextId + 1, activeIdx := none,
        requestsOpened := s.requestsOpened + 1 } := by
  have hsend : sendOp s =
      { conv := s.conv ++
          [{ id := s.nextId, role := Role.assistant, content := "",
             status := Status.pending }],
        nextId := s.nextId + 1, activeIdx := some s.conv.length,
        requestsOpened := s.requestsOpened + 1 } := by
    simp [sendOp, hidle]
  rw [List.foldl_append, hsend]
  obtain ⟨st2, h2⟩ := recv_textDeltas ds s.conv s.nextId Role.assistant ""
    Status.pending (s.nextId + 1) (s.requestsOpened + 1)
  rw [h2]
  simp [recvOp, modifyAt_append, String.empty_append]

/-- C6 witness: the theorem applied at the concrete idle client holding
one settled user message, with fragments `Hel` and `lo`. -/
theorem C6_witness :
    demoIdle.activeIdx = none ∧ readyToSend demoIdle.conv = true ∧
    (["Hel", "lo"].map StreamEvent.textDelta ++ [StreamEvent.finish]).foldl
        recvOp (sendOp demoIdle) =
      { conv := demoIdle.conv ++
          [{ id := demoIdle.nextId, role := Role.assistant,
             content := concatAll ["Hel", "lo"], status := Status.settled }],
        nextId := demoIdle.nextId + 1, activeIdx := none,
        requestsOpened := demoIdle.requestsOpened + 1 } :=
  ⟨rfl, by decide, C6_send_stream_settles demoIdle ["Hel", "lo"] rfl (by decide)⟩

/-- C7: at every reachable client state, at most one message of the
conversation has status streaming; a `send` attempted while a stream is
active is a no-op (the state, hence also the count of outbound requests
opened, is unchanged), and in general a second consecutive `send` is
absorbed by the first, so two concurrent outbound requests are never
issued for one conversation. -/
theorem C7_single_streaming (ops : List ClientOp) :
    streamingCount (run ops).conv ≤ 1 ∧
    ((run ops).activeIdx.isSome = true → sendOp (run ops) = run ops) ∧
    sendOp (sendOp (run ops)) = sendOp (run ops) :=
  ⟨streamingCount_le_one (run ops) (Inv_run ops),
   fun h => sendOp_active_noop (run ops) h,
   sendOp_sendOp (run ops)⟩

/-- C7 witness: the theorem applied after one `send` from the fresh
state, where a stream is active and the inner hypothesis holds. -/
theorem C7_witness :
    streamingCount (run [ClientOp.send]).conv ≤ 1 ∧
    sendOp (run [ClientOp.send]) = run [ClientOp.send] ∧
    sendOp (sendOp (run [ClientOp.send])) = sendOp (run [ClientOp.send]) :=
  ⟨(C7_single_streaming [ClientOp.send]).1,
   (C7_single_streaming [ClientOp.send]).2.1 (by decide),
   (C7_single_streaming [ClientOp.send]).2.2⟩

/-- C10: if the input text is empty or consists only of whitespace,
submitting the chat form is a no-op: the state is unchanged — in
particular no message is appended to the conversation, no outbound
request is opened, and the loading flag keeps its value. -/
theorem C10_blank_submit_noop (u : UIState)
    (h : ∀ c ∈ u.input.data, c.isWhitespace) :
    onSubmit u = u ∧
    (onSubmit u).client.conv = u.client.conv ∧
    (onSubmit u).client.requestsOpened = u.client.requestsOpened ∧
    (onSubmit u).loading = u.loading := by
  have hz : jsTrim u.input = "" := by
    unfold jsTrim
    rw [List.dropWhile_eq_nil_iff.mpr h]
    rfl
  have hu : onSubmit u = u := by simp [onSubmit, hz]
  exact ⟨hu, by rw [hu], by rw [hu], by rw [hu]⟩

/-- C10 witness: the theorem applied at the concrete whitespace-only
input state. -/
theorem C10_witness :
    onSubmit demoBlankUI = demoBlankUI ∧
    (onSubmit demoBlankUI).client.conv = demoBlankUI.client.conv ∧
    (onSubmit demoBlankUI).client.requestsOpened =
      demoBlankUI.client.requestsOpened ∧
    (onSubmit demoBlankUI).loading = demoBlankUI.loading :=
  C10_blank_submit_noop demoBlankUI (by decide)

end ChatApp
